import Mathlib

/-!
Verification of the PixMix token-relay core: a shallow embedding of the
client-side token acquisition (`authService.ts`), the service-side identity
token route (`gcloud-authentication/src/routes/auth.ts`), the device identity
provider, and the device request validator, with theorems settling the spec
claims about them.
-/

set_option maxRecDepth 4000

namespace PixMix

/-! ## Error values

The JavaScript code distinguishes errors only by their message strings; each
constructor below stands for one distinct `new Error(...)` site. -/

/-- Errors raised by `authService.ts`, one constructor per distinct
`new Error(...)` message in the source. -/
inductive AuthErr where
  /-- "No Google Identity token available. Set GOOGLE_IDENTITY_TOKEN env variable." -/
  | noIdentityToken
  /-- "Failed to get identity token: STATUS" (identity-token fetch not ok) -/
  | identityFetchFailed (status : Nat)
  /-- "Authentication failed: STATUS" (public-token fetch returned 401/403) -/
  | authenticationFailed (status : Nat)
  /-- "Server error: STATUS" (public-token fetch returned another non-ok status) -/
  | serverError (status : Nat)
  /-- a rejection thrown by `fetch` itself (network failure) -/
  | networkFailure
  /-- "Failed to get Cloud Run token after retries" (fall-through after the loop) -/
  | retriesFallthrough
  /-- "Failed to authenticate with service" (outer catch of `getCloudRunToken`) -/
  | genericAuthFailure
deriving DecidableEq, Repr

/-! ## `getGoogleIdentityToken` (authService.ts lines 19-68)

The one effect of the function is the optional `fetch` of
`/auth/identity-token`; its outcome is passed in explicitly. -/

/-- Possible outcomes of one HTTP fetch. -/
inductive FetchOutcome where
  /-- the response was ok and carried this token (and `expiresIn`) -/
  | httpOk (token : String) (expiresIn : Nat)
  /-- the response arrived with a non-ok status -/
  | httpError (status : Nat)
  /-- the fetch itself rejected (network failure) -/
  | netFail
deriving DecidableEq, Repr

/-- Embedding of `getGoogleIdentityToken` over its inputs: `nodeEnv` is
`process.env.NODE_ENV`, `envTok` is `process.env.GOOGLE_IDENTITY_TOKEN`, and
`identityFetch` the outcome the `/auth/identity-token` fetch would have.
Returns the result together with the number of network requests performed. -/
def getGoogleIdentityToken (nodeEnv : String) (envTok : Option String)
    (identityFetch : FetchOutcome) : Except AuthErr String × Nat :=
  let isDevelopment := nodeEnv == "development"
  if !isDevelopment then
    match envTok with
    | none => (.error .noIdentityToken, 0)
    | some devToken => (.ok devToken, 0)
  else
    match identityFetch with
    | .httpOk token _ => (.ok token, 1)
    | .httpError status => (.error (.identityFetchFailed status), 1)
    | .netFail => (.error .networkFailure, 1)

/-! ## `getCloudRunToken` retry loop (authService.ts lines 74-146)

`outcomes n` is the outcome the `/auth/public-token` fetch would have on the
iteration with `retryCount = n`. The loop is embedded with fuel equal to
`maxRetries - retryCount`, which is exactly the number of remaining
iterations of `while (retryCount < maxRetries)`. -/

/-- The `maxRetries` constant of `getCloudRunToken`. -/
def maxRetries : Nat := 3

/-- The error thrown at authService.ts lines 104-109 for a non-ok status:
401/403 become "Authentication failed", anything else "Server error". -/
def classifyStatus (status : Nat) : AuthErr :=
  if status = 401 || status = 403 then .authenticationFailed status
  else .serverError status

/-- One run of the `while (retryCount < maxRetries)` loop of
`getCloudRunToken`, started at the given `retryCount` with
`fuel = maxRetries - retryCount` remaining iterations. Returns the result,
the number of fetch attempts performed, and the list of backoff waits (ms)
in order. -/
def mintLoop (outcomes : Nat → FetchOutcome) :
    Nat → Nat → Except AuthErr String × Nat × List Nat
  | 0, _ => (.error .retriesFallthrough, 0, [])
  | fuel + 1, retryCount =>
    -- the catch block at lines 120-137, entered with the thrown error
    let onError (err : AuthErr) : Except AuthErr String × Nat × List Nat :=
      let retryCount' := retryCount + 1
      if maxRetries ≤ retryCount' then (.error err, 1, [])
      else
        let wait := 1000 * 2 ^ retryCount'
        let rest := mintLoop outcomes fuel retryCount'
        (rest.1, rest.2.1 + 1, wait :: rest.2.2)
    match outcomes retryCount with
    | .httpOk token _ => (.ok token, 1, [])
    | .httpError status => onError (classifyStatus status)
    | .netFail => onError .networkFailure

/-- Embedding of `getCloudRunToken`: obtains the identity token (its result is passed in
as `identity`), then runs the retry loop; the outer catch replaces any error
with the constant "Failed to authenticate with service" error. Returns the
result, the number of mint fetch attempts, and the backoff waits. -/
def getCloudRunToken (identity : Except AuthErr String)
    (outcomes : Nat → FetchOutcome) : Except AuthErr String × Nat × List Nat :=
  match identity with
  | .error _ => (.error .genericAuthFailure, 0, [])
  | .ok _ =>
    let r := mintLoop outcomes maxRetries 0
    match r.1 with
    | .ok token => (.ok token, r.2)
    | .error _ => (.error .genericAuthFailure, r.2)

/-- The transient failure class of the spec: a network error or a 5xx
response (never a success). -/
def FetchOutcome.isTransient : FetchOutcome → Bool
  | .httpOk _ _ => false
  | .httpError status => 500 ≤ status
  | .netFail => true

/-! ## Token cache and `getCachedCloudRunToken` (authService.ts lines 8-9, 152-181)

The module-level `let cachedCloudRunToken / tokenExpiry` pair is the state;
JavaScript truthiness is modelled faithfully: the empty string and the
number 0 are falsy. -/

/-- The module-level token cache of `authService.ts`. -/
structure TokenCacheState where
  cachedCloudRunToken : Option String
  tokenExpiry : Option Nat
deriving DecidableEq, Repr

/-- The guard `cachedCloudRunToken && tokenExpiry && now < tokenExpiry`
(line 156), with JavaScript truthiness: `""` and `0` are falsy. -/
def cacheValid (s : TokenCacheState) (now : Nat) : Bool :=
  match s.cachedCloudRunToken, s.tokenExpiry with
  | some token, some expiry => token ≠ "" && expiry ≠ 0 && now < expiry
  | _, _ => false

/-- The milliseconds of cache lifetime written at line 168:
`50 * 60 * 1000` (tokens expire in 60 minutes, cached for 50). -/
def cacheLifetimeMs : Nat := 50 * 60 * 1000

/-- Embedding of `getCachedCloudRunToken`: return the cached token if still valid,
otherwise call `getCloudRunToken` and cache the result with
`tokenExpiry = now + 50 * 60 * 1000`. Returns the result, the new cache
state, and the number of mint fetch attempts performed. -/
def getCachedCloudRunToken (s : TokenCacheState) (now : Nat)
    (identity : Except AuthErr String) (outcomes : Nat → FetchOutcome) :
    Except AuthErr String × TokenCacheState × Nat :=
  if cacheValid s now then
    (.ok (s.cachedCloudRunToken.getD ""), s, 0)
  else
    let r := getCloudRunToken identity outcomes
    match r.1 with
    | .ok token => (.ok token, ⟨some token, some (now + cacheLifetimeMs)⟩, r.2.1)
    | .error e => (.error e, s, r.2.1)

/-- The cache expiry written by the `src/unnamed/part_001` variant of
`getCloudRunToken` (line 95): `Date.now() + (data.expiresIn - 60) * 1000`. -/
def cacheExpiryDevice (now expiresIn : Nat) : Nat :=
  now + (expiresIn - 60) * 1000

/-! ## `getDeviceIdentifier` (src/unnamed/part_001 lines 19-46) -/

/-- Outcome of the `AsyncStorage.getItem('device_id')` read. -/
inductive StorageRead where
  /-- a device id was already stored -/
  | found (v : String)
  /-- no stored value (`null`) -/
  | absent
  /-- the read threw -/
  | failed
deriving DecidableEq, Repr

/-- Two-character lowercase hex of one byte:
`('0' + (byte & 0xFF).toString(16)).slice(-2)`. -/
def byteToHex (b : Nat) : String :=
  let s := (Nat.toDigits 16 (b % 256)).asString
  if s.length = 1 then "0" ++ s else s

/-- Embedding of `getDeviceIdentifier` over the outcomes of its effects:
the storage read, whether this is a physical device, the device descriptors,
`Date.now()`, the random-bytes call (`none` when it threw), and whether the
final `AsyncStorage.setItem` succeeded. Any thrown error lands in the catch
block, which returns the `fallback-TIMESTAMP` identifier instead of
rethrowing. -/
def getDeviceIdentifier (read : StorageRead) (isDevice : Bool)
    (modelName osVersion : String) (nowMs : Nat)
    (randomBytes : Option (List Nat)) (writeSucceeds : Bool) : String :=
  match read with
  | .failed => "fallback-" ++ toString nowMs
  | .found v => v
  | .absent =>
    let derived : Option String :=
      if isDevice then
        some (modelName ++ "-" ++ osVersion ++ "-" ++ toString nowMs)
      else
        match randomBytes with
        | none => none
        | some bytes => some (String.join (bytes.map byteToHex))
    match derived with
    | none => "fallback-" ++ toString nowMs
    | some deviceId =>
      if writeSucceeds then deviceId else "fallback-" ++ toString nowMs

/-! ## Device Request Validator -/

/-- A device-token mint request (spec §3). -/
structure DeviceRequest where
  deviceId : String
  platform : String
  appVersion : String
  requestTimestamp : Int
deriving DecidableEq, Repr

/-- Validation failures of the Device Request Validator (spec §4.2). -/
inductive ValidationError where
  | MissingField
  | UnsupportedVersion
  | StaleOrFutureRequest
deriving DecidableEq, Repr

/-- The replay window in milliseconds (spec §6: fixed at 300s). -/
def replayWindowMs : Nat := 300000

/-- Modelled from the spec: the Device Request Validator behind
`POST /auth/device-token` is not present under `src/` (only its caller in
`src/unnamed/part_001` is). Following §4.2, the checks run in order and
short-circuit on the first failure: presence of `deviceId`, `appVersion`
and `platform` (`MissingField`), membership of `appVersion` in the
configured allow-set (`UnsupportedVersion`), then
`|serverNow − requestTimestamp| ≤ 300000 ms` (`StaleOrFutureRequest`). -/
def validate (allowedAppVersions : List String) (serverNow : Int)
    (r : DeviceRequest) : Except ValidationError Unit :=
  if r.deviceId = "" ∨ r.appVersion = "" ∨ r.platform = "" then
    .error .MissingField
  else if r.appVersion ∉ allowedAppVersions then
    .error .UnsupportedVersion
  else if replayWindowMs < (serverNow - r.requestTimestamp).natAbs then
    .error .StaleOrFutureRequest
  else
    .ok ()

/-! ## `/auth/identity-token` handler (gcloud-authentication/src/routes/auth.ts lines 119-166) -/

/-- The JWT payload built at auth.ts lines 133-139. -/
structure JwtPayload where
  iss : String
  sub : String
  aud : String
  iat : Nat
  exp : Nat
deriving DecidableEq, Repr

/-- A signed JWT: `jwt.sign(payload, privateKey, { algorithm })`. -/
structure SignedJwt where
  alg : String
  payload : JwtPayload
  key : String
deriving DecidableEq, Repr

/-- The environment configuration the auth route reads. -/
structure AuthServiceEnv where
  /-- `process.env.CLOUD_RUN_SERVICE_ACCOUNT_EMAIL` -/
  serviceAccountEmail : String
  /-- `process.env.CLOUD_RUN_PRIVATE_KEY` (after `\n` unescaping), absent when unset -/
  privateKey : Option String
deriving DecidableEq, Repr

/-- The response of the `/auth/identity-token` route. -/
structure IdentityTokenResponse where
  status : Nat
  token : Option SignedJwt
  expiresIn : Option Nat
deriving DecidableEq, Repr

/-- The hardcoded audience of auth.ts line 129 — this service's own URL. -/
def audienceUrl : String :=
  "https://gcloud-authentication-493914627855.us-central1.run.app"

/-- The `/auth/identity-token` handler: when no private key is configured
the thrown "CLOUD_RUN_PRIVATE_KEY is not configured" error is caught and a
500 response without a token is sent; otherwise the JWT with claims
`{iss, sub, aud, iat = now, exp = now + 3600}` is signed with RS256 and
returned with `expiresIn = 3600`. `nowSec` is `Math.floor(Date.now()/1000)`. -/
def identityTokenHandler (env : AuthServiceEnv) (nowSec : Nat) :
    IdentityTokenResponse :=
  let email := env.serviceAccountEmail
  let payload : JwtPayload :=
    { iss := email, sub := email, aud := audienceUrl
      iat := nowSec, exp := nowSec + 3600 }
  match env.privateKey with
  | none => { status := 500, token := none, expiresIn := none }
  | some privateKey =>
    { status := 200
      token := some { alg := "RS256", payload := payload, key := privateKey }
      expiresIn := some 3600 }

/-! ## Theorems settling the claims -/

/-- C1 (code behavior at the failing input): when every `/auth/public-token`
attempt returns HTTP 401, `getCloudRunToken` does NOT stop after the first
attempt: it performs all 3 attempts, waits the 2000 ms and 4000 ms backoffs
in between, and finally raises the generic "Failed to authenticate with
service" error. The thrown "Authentication failed: 401" error is caught by
the retry loop's own catch block, contradicting the comment "If this is an
authentication error, don't retry". -/
theorem C1_auth_error_is_retried :
    getCloudRunToken (.ok "identity") (fun _ => .httpError 401) =
      (.error .genericAuthFailure, 3, [2000, 4000]) := by
  rfl

/-- C2: for a device request that passes the presence and version checks,
the Validator rejects with `StaleOrFutureRequest` exactly when
`|serverNow − requestTimestamp| > 300000` ms and accepts exactly when
`|serverNow − requestTimestamp| ≤ 300000` ms, regardless of sign; the
timestamp check runs only after the `MissingField` and
`UnsupportedVersion` checks, which short-circuit in that order. -/
theorem C2_timestamp_window (allowed : List String) (serverNow : Int)
    (r : DeviceRequest)
    (hPresent : r.deviceId ≠ "" ∧ r.appVersion ≠ "" ∧ r.platform ≠ "")
    (hVer : r.appVersion ∈ allowed) :
    replayWindowMs = 300000 ∧
    (validate allowed serverNow r = .error .StaleOrFutureRequest ↔
      300000 < (serverNow - r.requestTimestamp).natAbs) ∧
    (validate allowed serverNow r = .ok () ↔
      (serverNow - r.requestTimestamp).natAbs ≤ 300000) ∧
    (∀ r' : DeviceRequest,
      r'.deviceId = "" ∨ r'.appVersion = "" ∨ r'.platform = "" →
      validate allowed serverNow r' = .error .MissingField) ∧
    (∀ r' : DeviceRequest,
      r'.deviceId ≠ "" ∧ r'.appVersion ≠ "" ∧ r'.platform ≠ "" →
      r'.appVersion ∉ allowed →
      validate allowed serverNow r' = .error .UnsupportedVersion) := by
  obtain ⟨h1, h2, h3⟩ := hPresent
  refine ⟨rfl, ?_, ?_, ?_, ?_⟩
  · by_cases hw : replayWindowMs < (serverNow - r.requestTimestamp).natAbs
    · simp [validate, h1, h2, h3, hVer, hw]
      simpa [replayWindowMs] using hw
    · simp [validate, h1, h2, h3, hVer, hw]
      simpa [replayWindowMs] using hw
  · by_cases hw : replayWindowMs < (serverNow - r.requestTimestamp).natAbs
    · simp [validate, h1, h2, h3, hVer, hw]
      simpa [replayWindowMs] using hw
    · simp [validate, h1, h2, h3, hVer, hw]
      simpa [replayWindowMs, Nat.not_lt] using hw
  · intro r' hr'
    simp [validate, hr']
  · intro r' ⟨g1, g2, g3⟩ hver'
    simp [validate, g1, g2, g3, hver']

/-- C2 witness: the in-window request of spec §8's success scenario,
exactly 300000 ms old, is accepted. -/
theorem C2_timestamp_window_witness :
    validate ["1.0.0"] 1000000
      ⟨"abc", "ios", "1.0.0", 700000⟩ = .ok () :=
  ((C2_timestamp_window ["1.0.0"] 1000000 ⟨"abc", "ios", "1.0.0", 700000⟩
    (by refine ⟨?_, ?_, ?_⟩ <;> decide) (by decide)).2.2.1).mpr (by decide)

/-- C3: when the first two mint attempts fail with a transient error and the
third succeeds, `getCloudRunToken` returns the token after exactly 3
attempts, with backoff waits of `1000·2^1 = 2000` ms and `1000·2^2 = 4000`
ms before attempts 2 and 3, so at least 6000 ms of waiting happen before
the third attempt begins. -/
theorem C3_transient_retry_backoff (outcomes : Nat → FetchOutcome)
    (idTok token : String) (expiresIn : Nat)
    (h0 : (outcomes 0).isTransient = true)
    (h1 : (outcomes 1).isTransient = true)
    (h2 : outcomes 2 = .httpOk token expiresIn) :
    getCloudRunToken (.ok idTok) outcomes = (.ok token, 3, [2000, 4000]) ∧
    1000 * 2 ^ 1 + 1000 * 2 ^ 2 ≤
      (getCloudRunToken (.ok idTok) outcomes).2.2.sum := by
  have key : mintLoop outcomes maxRetries 0 = (.ok token, 3, [2000, 4000]) := by
    cases ho0 : outcomes 0 with
    | httpOk t e =>
      rw [ho0] at h0
      simp [FetchOutcome.isTransient] at h0
    | httpError s =>
      cases ho1 : outcomes 1 with
      | httpOk t e =>
        rw [ho1] at h1
        simp [FetchOutcome.isTransient] at h1
      | httpError s1 => simp [mintLoop, maxRetries, ho0, ho1, h2]
      | netFail => simp [mintLoop, maxRetries, ho0, ho1, h2]
    | netFail =>
      cases ho1 : outcomes 1 with
      | httpOk t e =>
        rw [ho1] at h1
        simp [FetchOutcome.isTransient] at h1
      | httpError s1 => simp [mintLoop, maxRetries, ho0, ho1, h2]
      | netFail => simp [mintLoop, maxRetries, ho0, ho1, h2]
  refine ⟨?_, ?_⟩ <;> simp [getCloudRunToken, key]

/-- C3 witness: two network failures followed by a success yield the token
after 3 attempts and waits `[2000, 4000]`. -/
theorem C3_transient_retry_backoff_witness :
    getCloudRunToken (.ok "id")
        (fun n => if n < 2 then .netFail else .httpOk "tok" 3600)
      = (.ok "tok", 3, [2000, 4000]) ∧
    1000 * 2 ^ 1 + 1000 * 2 ^ 2 ≤
      (getCloudRunToken (.ok "id")
        (fun n => if n < 2 then .netFail else .httpOk "tok" 3600)).2.2.sum :=
  C3_transient_retry_backoff
    (fun n => if n < 2 then .netFail else .httpOk "tok" 3600)
    "id" "tok" 3600 (by decide) (by decide) (by decide)

/-- C4 counterexample: the `src/unnamed/part_001` variant of
`getCloudRunToken` caches with `tokenExpiry = now + (expiresIn − 60)·1000`,
a 60 s safety margin, not 600 s: for a mint at time 0 with
`expiresIn = 3600` the local expiry is 3,540,000 ms, not
`issuedAt + (3600 − 600)·1000 = 3,000,000` ms, and the cache still hands
the token out at 3,300,000 ms — inside the last 10% of its 3,600,000 ms
life (which begins at 3,240,000 ms). -/
theorem C4_safety_margin_counterexample :
    cacheExpiryDevice 0 3600 = 3540000 ∧
    cacheExpiryDevice 0 3600 ≠ 0 + (3600 - 600) * 1000 ∧
    cacheValid ⟨some "tok", some (cacheExpiryDevice 0 3600)⟩ 3300000 = true ∧
    9 * (3600 * 1000) / 10 < 3300000 := by
  refine ⟨rfl, by decide, by decide, by decide⟩

/-- C4 amended: in `services/authService.ts`, a refresh performed by
`getCachedCloudRunToken` at time `now` stores
`tokenExpiry = now + (3600 − 600)·1000` ms (the 50-minute cache of the
60-minute token, a 600 s margin), so for any `issuedAt ≥ now` the cache
never hands out the token within the last 10% of its 3600 s life; the
`src/unnamed/part_001` variant instead stores
`now + (expiresIn − 60)·1000`, a 60 s margin. -/
theorem C4_safety_margin_amended (s : TokenCacheState)
    (now issuedAt t expiresIn : Nat) (token : String)
    (identity : Except AuthErr String) (outcomes : Nat → FetchOutcome)
    (hmiss : cacheValid s now = false)
    (hmint : (getCloudRunToken identity outcomes).1 = .ok token)
    (hIss : now ≤ issuedAt)
    (hvalid : cacheValid
      (getCachedCloudRunToken s now identity outcomes).2.1 t = true) :
    (getCachedCloudRunToken s now identity outcomes).2.1.tokenExpiry
      = some (now + (3600 - 600) * 1000) ∧
    t < issuedAt + 9 * (3600 * 1000) / 10 ∧
    cacheExpiryDevice now expiresIn = now + (expiresIn - 60) * 1000 := by
  have hstate : (getCachedCloudRunToken s now identity outcomes).2.1
      = ⟨some token, some (now + cacheLifetimeMs)⟩ := by
    unfold getCachedCloudRunToken
    rw [hmiss]
    simp only [Bool.false_eq_true, if_false]
    rcases hr : (getCloudRunToken identity outcomes) with ⟨res, n, ws⟩
    rw [hr] at hmint
    simp only at hmint
    subst hmint
    rfl
  refine ⟨?_, ?_, rfl⟩
  · rw [hstate]
    rfl
  · rw [hstate] at hvalid
    simp only [cacheValid, Bool.and_eq_true, decide_eq_true_eq] at hvalid
    have ht : t < now + cacheLifetimeMs := hvalid.2
    have : cacheLifetimeMs = 3000000 := rfl
    omega

/-- C4 amended witness: an empty cache refreshed at time 0 by a single
successful mint stores expiry 3,000,000 ms, and its token is valid at
100 ms, well before the last 10% of a token issued at time 0. -/
theorem C4_safety_margin_amended_witness :
    (getCachedCloudRunToken ⟨none, none⟩ 0 (.ok "id")
        (fun _ => .httpOk "tok" 3600)).2.1.tokenExpiry
      = some (0 + (3600 - 600) * 1000) ∧
    100 < 0 + 9 * (3600 * 1000) / 10 ∧
    cacheExpiryDevice 0 3600 = 0 + (3600 - 60) * 1000 :=
  C4_safety_margin_amended ⟨none, none⟩ 0 0 100 3600 "tok" (.ok "id")
    (fun _ => .httpOk "tok" 3600) (by decide) (by rfl) (by decide)
    (by decide)

/-- C5 counterexample: after three transient failures, the error raised by
`getCloudRunToken` is the payload-free constant
"Failed to authenticate with service" (the outer catch at authService.ts
line 144 replaces the rethrown last error): two runs whose last underlying
errors differ (a network failure vs a 503 "Server error") raise the very
same error value, so the raised error does not wrap the underlying error of
the last attempt. -/
theorem C5_no_wrapping_counterexample :
    (getCloudRunToken (.ok "id") (fun _ => .netFail)).1
      = .error .genericAuthFailure ∧
    (getCloudRunToken (.ok "id") (fun _ => .httpError 503)).1
      = .error .genericAuthFailure ∧
    AuthErr.networkFailure ≠ AuthErr.serverError 503 := by
  refine ⟨rfl, rfl, by decide⟩

/-- C5 amended: when all 3 attempts fail with a transient error,
`getCloudRunToken` fails after exactly 3 attempts and the backoffs
`[2000, 4000]` ms, but the error it raises is the fixed generic
"Failed to authenticate with service" error; the last attempt's underlying
error is only rethrown inside the loop and logged, not wrapped in the
raised error. -/
theorem C5_retries_exhausted_amended (outcomes : Nat → FetchOutcome)
    (idTok : String)
    (h0 : (outcomes 0).isTransient = true)
    (h1 : (outcomes 1).isTransient = true)
    (h2 : (outcomes 2).isTransient = true) :
    getCloudRunToken (.ok idTok) outcomes
      = (.error .genericAuthFailure, 3, [2000, 4000]) := by
  have key : ∃ err, mintLoop outcomes maxRetries 0
      = (.error err, 3, [2000, 4000]) := by
    cases ho0 : outcomes 0 with
    | httpOk t e =>
      rw [ho0] at h0
      simp [FetchOutcome.isTransient] at h0
    | httpError s =>
      cases ho1 : outcomes 1 with
      | httpOk t e =>
        rw [ho1] at h1
        simp [FetchOutcome.isTransient] at h1
      | httpError s1 =>
        cases ho2 : outcomes 2 with
        | httpOk t e =>
          rw [ho2] at h2
          simp [FetchOutcome.isTransient] at h2
        | httpError s2 =>
          exact ⟨classifyStatus s2, by simp [mintLoop, maxRetries, ho0, ho1, ho2]⟩
        | netFail =>
          exact ⟨.networkFailure, by simp [mintLoop, maxRetries, ho0, ho1, ho2]⟩
      | netFail =>
        cases ho2 : outcomes 2 with
        | httpOk t e =>
          rw [ho2] at h2
          simp [FetchOutcome.isTransient] at h2
        | httpError s2 =>
          exact ⟨classifyStatus s2, by simp [mintLoop, maxRetries, ho0, ho1, ho2]⟩
        | netFail =>
          exact ⟨.networkFailure, by simp [mintLoop, maxRetries, ho0, ho1, ho2]⟩
    | netFail =>
      cases ho1 : outcomes 1 with
      | httpOk t e =>
        rw [ho1] at h1
        simp [FetchOutcome.isTransient] at h1
      | httpError s1 =>
        cases ho2 : outcomes 2 with
        | httpOk t e =>
          rw [ho2] at h2
          simp [FetchOutcome.isTransient] at h2
        | httpError s2 =>
          exact ⟨classifyStatus s2, by simp [mintLoop, maxRetries, ho0, ho1, ho2]⟩
        | netFail =>
          exact ⟨.networkFailure, by simp [mintLoop, maxRetries, ho0, ho1, ho2]⟩
      | netFail =>
        cases ho2 : outcomes 2 with
        | httpOk t e =>
          rw [ho2] at h2
          simp [FetchOutcome.isTransient] at h2
        | httpError s2 =>
          exact ⟨classifyStatus s2, by simp [mintLoop, maxRetries, ho0, ho1, ho2]⟩
        | netFail =>
          exact ⟨.networkFailure, by simp [mintLoop, maxRetries, ho0, ho1, ho2]⟩
  obtain ⟨err, key⟩ := key
  simp [getCloudRunToken, key]

/-- C5 amended witness: three consecutive network failures raise the
generic error after 3 attempts and waits `[2000, 4000]`. -/
theorem C5_retries_exhausted_amended_witness :
    getCloudRunToken (.ok "id") (fun _ => .netFail)
      = (.error .genericAuthFailure, 3, [2000, 4000]) :=
  C5_retries_exhausted_amended (fun _ => .netFail) "id"
    (by decide) (by decide) (by decide)

/-- C6: when the cache is empty or expired and a single-attempt mint
succeeds, the first `getCachedCloudRunToken` call performs exactly one
network call and populates the cache; a second call at any time within the
cache window (`now1 < now0 + 50·60·1000`) returns the cached token
directly with zero network calls and leaves the cache state unchanged, so
the two calls perform exactly one network call in total. -/
theorem C6_cache_idempotent (s : TokenCacheState) (now0 now1 : Nat)
    (token : String) (identity identity2 : Except AuthErr String)
    (outcomes outcomes2 : Nat → FetchOutcome)
    (hTok : token ≠ "")
    (hmiss : cacheValid s now0 = false)
    (hmint : getCloudRunToken identity outcomes = (.ok token, 1, []))
    (hNow : now1 < now0 + cacheLifetimeMs) :
    getCachedCloudRunToken s now0 identity outcomes
      = (.ok token, ⟨some token, some (now0 + cacheLifetimeMs)⟩, 1) ∧
    getCachedCloudRunToken ⟨some token, some (now0 + cacheLifetimeMs)⟩ now1
        identity2 outcomes2
      = (.ok token, ⟨some token, some (now0 + cacheLifetimeMs)⟩, 0) := by
  have hvalid : cacheValid
      ⟨some token, some (now0 + cacheLifetimeMs)⟩ now1 = true := by
    simp only [cacheValid, Bool.and_eq_true, decide_eq_true_eq]
    refine ⟨⟨hTok, ?_⟩, hNow⟩
    have : cacheLifetimeMs = 3000000 := rfl
    omega
  constructor
  · unfold getCachedCloudRunToken
    rw [hmiss, hmint]
    rfl
  · unfold getCachedCloudRunToken
    rw [hvalid]
    rfl

/-- C6 witness: from an empty cache at time 0, a first call with a
one-attempt successful mint makes one network call; a second call at time
5 makes none and leaves the state untouched. -/
theorem C6_cache_idempotent_witness :
    getCachedCloudRunToken ⟨none, none⟩ 0 (.ok "id")
        (fun _ => .httpOk "tok" 3600)
      = (.ok "tok", ⟨some "tok", some (0 + cacheLifetimeMs)⟩, 1) ∧
    getCachedCloudRunToken ⟨some "tok", some (0 + cacheLifetimeMs)⟩ 5
        (.error .networkFailure) (fun _ => .netFail)
      = (.ok "tok", ⟨some "tok", some (0 + cacheLifetimeMs)⟩, 0) :=
  C6_cache_idempotent ⟨none, none⟩ 0 5 "tok" (.ok "id")
    (.error .networkFailure) (fun _ => .httpOk "tok" 3600)
    (fun _ => .netFail) (by decide) (by decide) (by rfl) (by decide)

/-- C7: the cache comparison is strict. A populated cache whose
`tokenExpiry` is `now + 1` is still valid: the token is returned with no
network call and no state change; `tokenExpiry = now` itself is already
expired; and with `tokenExpiry = now − 1` (`now = e + 1`) the token is
treated as expired and a refresh is performed — the mint is invoked and
its fresh token is returned and cached. -/
theorem C7_expiry_boundary_strict (e : Nat) (token token2 : String)
    (identity : Except AuthErr String) (outcomes : Nat → FetchOutcome)
    (hTok : token ≠ "")
    (hmint : getCloudRunToken identity outcomes = (.ok token2, 1, [])) :
    (∀ now : Nat,
      getCachedCloudRunToken ⟨some token, some (now + 1)⟩ now
          identity outcomes
        = (.ok token, ⟨some token, some (now + 1)⟩, 0)) ∧
    (∀ now : Nat,
      cacheValid ⟨some token, some now⟩ now = false) ∧
    getCachedCloudRunToken ⟨some token, some e⟩ (e + 1) identity outcomes
      = (.ok token2, ⟨some token2, some (e + 1 + cacheLifetimeMs)⟩, 1) := by
  refine ⟨?_, ?_, ?_⟩
  · intro now
    have hvalid : cacheValid ⟨some token, some (now + 1)⟩ now = true := by
      simp only [cacheValid, Bool.and_eq_true, decide_eq_true_eq]
      exact ⟨⟨hTok, by omega⟩, by omega⟩
    unfold getCachedCloudRunToken
    rw [hvalid]
    rfl
  · intro now
    simp [cacheValid]
  · have hexp : cacheValid ⟨some token, some e⟩ (e + 1) = false := by
      simp [cacheValid]
    unfold getCachedCloudRunToken
    rw [hexp, hmint]
    rfl

/-- C7 witness: with `tokenExpiry = 1` the cached token is returned at
`now = 0` with no network call; with `tokenExpiry = 0` at `now = 1` a
refresh runs, making one network call and caching the fresh token. -/
theorem C7_expiry_boundary_strict_witness :
    (∀ now : Nat,
      getCachedCloudRunToken ⟨some "tok", some (now + 1)⟩ now
          (.ok "id") (fun _ => .httpOk "fresh" 3600)
        = (.ok "tok", ⟨some "tok", some (now + 1)⟩, 0)) ∧
    (∀ now : Nat, cacheValid ⟨some "tok", some now⟩ now = false) ∧
    getCachedCloudRunToken ⟨some "tok", some 0⟩ 1
        (.ok "id") (fun _ => .httpOk "fresh" 3600)
      = (.ok "fresh", ⟨some "fresh", some (1 + cacheLifetimeMs)⟩, 1) :=
  C7_expiry_boundary_strict 0 "tok" "fresh" (.ok "id")
    (fun _ => .httpOk "fresh" 3600) (by decide) (by rfl)

/-- C8: a successful `/auth/identity-token` call returns an RS256-signed
JWT whose claims are exactly `{iss = service email, sub = same email,
aud = this service's own URL, iat = now, exp = now + 3600}` together with
`expiresIn = 3600`; when no private key is configured the call produces no
token and responds 500. -/
theorem C8_identity_assertion (env : AuthServiceEnv) (nowSec : Nat) :
    (env.privateKey = none →
      identityTokenHandler env nowSec
        = { status := 500, token := none, expiresIn := none }) ∧
    (∀ k, env.privateKey = some k →
      identityTokenHandler env nowSec
        = { status := 200
            token := some
              { alg := "RS256"
                payload :=
                  { iss := env.serviceAccountEmail
                    sub := env.serviceAccountEmail
                    aud := audienceUrl
                    iat := nowSec
                    exp := nowSec + 3600 }
                key := k }
            expiresIn := some 3600 }) := by
  constructor
  · intro h
    simp [identityTokenHandler, h]
  · intro k h
    simp [identityTokenHandler, h]

/-- C8 witness: with a configured key the handler returns the signed JWT
with the exact claims; (the key-missing half is exercised through the same
theorem at an env without a key via the first conjunct). -/
theorem C8_identity_assertion_witness :
    identityTokenHandler ⟨"svc@example.iam.gserviceaccount.com", some "PEM"⟩
        1700000000
      = { status := 200
          token := some
            { alg := "RS256"
              payload :=
                { iss := "svc@example.iam.gserviceaccount.com"
                  sub := "svc@example.iam.gserviceaccount.com"
                  aud := audienceUrl
                  iat := 1700000000
                  exp := 1700000000 + 3600 }
              key := "PEM" }
          expiresIn := some 3600 } :=
  (C8_identity_assertion
    ⟨"svc@example.iam.gserviceaccount.com", some "PEM"⟩ 1700000000).2
    "PEM" rfl

/-- C9: `getDeviceIdentifier` returns an already-stored identifier
unchanged, and on any failure — storage read failure, randomness failure
(non-device with no random bytes), or persistence failure — it returns the
timestamp-derived `fallback-TIMESTAMP` identifier instead of throwing. -/
theorem C9_device_id_fallback (isDevice : Bool)
    (modelName osVersion v : String) (nowMs : Nat)
    (randomBytes : Option (List Nat)) (writeSucceeds : Bool) :
    getDeviceIdentifier (.found v) isDevice modelName osVersion nowMs
        randomBytes writeSucceeds = v ∧
    getDeviceIdentifier .failed isDevice modelName osVersion nowMs
        randomBytes writeSucceeds = "fallback-" ++ toString nowMs ∧
    getDeviceIdentifier .absent false modelName osVersion nowMs
        none writeSucceeds = "fallback-" ++ toString nowMs ∧
    getDeviceIdentifier .absent isDevice modelName osVersion nowMs
        randomBytes false = "fallback-" ++ toString nowMs := by
  refine ⟨rfl, rfl, rfl, ?_⟩
  cases isDevice <;> cases randomBytes <;> simp [getDeviceIdentifier]

/-- C10: the development check of `getGoogleIdentityToken` is inverted
relative to its comments: whenever `NODE_ENV ≠ "development"` the function
performs no network request and returns `GOOGLE_IDENTITY_TOKEN` when set,
failing when unset; only when `NODE_ENV = "development"` does it fetch
from `/auth/identity-token`. -/
theorem C10_identity_branch_inverted (nodeEnv : String)
    (envTok : Option String) (identityFetch : FetchOutcome) :
    (nodeEnv ≠ "development" →
      (getGoogleIdentityToken nodeEnv envTok identityFetch).2 = 0 ∧
      (∀ t, envTok = some t →
        (getGoogleIdentityToken nodeEnv envTok identityFetch).1 = .ok t) ∧
      (envTok = none →
        (getGoogleIdentityToken nodeEnv envTok identityFetch).1
          = .error .noIdentityToken)) ∧
    (nodeEnv = "development" →
      (getGoogleIdentityToken nodeEnv envTok identityFetch).2 = 1) := by
  constructor
  · intro h
    have hb : (nodeEnv == "development") = false := by
      simpa using h
    refine ⟨?_, ?_, ?_⟩
    · cases envTok <;> simp [getGoogleIdentityToken, hb]
    · intro t ht
      subst ht
      simp [getGoogleIdentityToken, hb]
    · intro ht
      subst ht
      simp [getGoogleIdentityToken, hb]
  · intro h
    subst h
    cases identityFetch <;> simp [getGoogleIdentityToken]

/-- C10 witness: with `NODE_ENV = "production"` the function makes no
network request and returns the environment token. -/
theorem C10_identity_branch_inverted_witness :
    (getGoogleIdentityToken "production" (some "envtok") .netFail).2 = 0 ∧
    (getGoogleIdentityToken "production" (some "envtok") .netFail).1
      = .ok "envtok" :=
  ⟨((C10_identity_branch_inverted "production" (some "envtok")
      .netFail).1 (by decide)).1,
   ((C10_identity_branch_inverted "production" (some "envtok")
      .netFail).1 (by decide)).2.1 "envtok" rfl⟩

end PixMix
